import Mathlib

/-!
Verification development for the paragen glTF document model and its
default-value-aware JSON serializer (src/src/paragen.rs).

Modelling conventions:
- Rust `f64` fields are modelled as exact rationals (ℚ).  Every comparison the
  source performs on floats is an exact equality against a literal default
  (`*value == 1.0`, `*self == Self::new()`), and every claim under study
  involves only exactly-representable values (0, 1, 0.5, ...), so the exact
  model coincides with IEEE equality on all inputs the claims mention.
- Rust `u32` fields are modelled as `Nat`.  The code runs on wasm32 where
  `usize` is 32 bits, so the `as u32` casts on buffer lengths are lossless.
- serde serialization is modelled in two layers: a per-entity function into a
  JSON value tree (mirroring the derived `Serialize` impls, field order,
  `rename` and `skip_serializing_if` attributes), and a formatter `emit`
  mirroring the write calls of serde_json `to_writer_pretty` (two-space
  indentation).  Byte buffers are modelled as `String` with UTF-8 byte counts.
-/

/-- JSON value tree.  `nat` is an integer literal (Rust unsigned ints and the
serde_repr enum codes); `num` is a float literal (Rust f64, which serde_json
prints with a decimal point even at integral values). -/
inductive Json where
  | nat (n : Nat)
  | num (q : ℚ)
  | str (s : String)
  | bool (b : Bool)
  | arr (elems : List Json)
  | obj (fields : List (String × Json))

/-- Field list of a JSON object (empty for non-objects). -/
def Json.fields : Json → List (String × Json)
  | .obj fs => fs
  | _ => []

/-- Key list of a JSON object. -/
def Json.keys (j : Json) : List String := j.fields.map Prod.fst

/-- serde emission of a field carrying a skip_serializing_if attribute: the
field is present exactly when the skip predicate is false. -/
def skipIf (skip : Bool) (key : String) (v : Json) : List (String × Json) :=
  if skip then [] else [(key, v)]

/-- serde emission of an Option field with skip_serializing_if Option.is_none. -/
def optField (key : String) : Option Json → List (String × Json)
  | none => []
  | some v => [(key, v)]

/-! ## Data model (structs of src/src/paragen.rs, in source order) -/

/-- Rust struct Asset (paragen.rs lines 58-77). -/
structure Asset where
  copyright : String
  generator : String
  version : String
  min_version : String
deriving DecidableEq

/-- Rust Asset::new (paragen.rs lines 79-88). -/
def Asset.new : Asset :=
  { copyright := ""
    generator := "Paragen v0.1.0"
    version := "2.0"
    min_version := "2.0" }

/-- Rust struct Scene (paragen.rs lines 150-162). -/
structure Scene where
  name : String
  nodes : List Nat
deriving DecidableEq

/-- Rust Scene::new. -/
def Scene.new : Scene := { name := "", nodes := [] }

/-- Rust struct Translation (serde_tuple, paragen.rs lines 170-176). -/
structure Translation where
  x : ℚ
  y : ℚ
  z : ℚ
deriving DecidableEq

/-- Rust Translation::new, the default origin. -/
def Translation.new : Translation := { x := 0, y := 0, z := 0 }

/-- Rust Translation::is_default: exact equality with Translation::new. -/
def Translation.is_default (t : Translation) : Bool := decide (t = Translation.new)

/-- Rust struct Rotation (serde_tuple, paragen.rs lines 183-190). -/
structure Rotation where
  x : ℚ
  y : ℚ
  z : ℚ
  w : ℚ
deriving DecidableEq

/-- Rust Rotation::new, the identity quaternion (0,0,0,1). -/
def Rotation.new : Rotation := { x := 0, y := 0, z := 0, w := 1 }

/-- Rust Rotation::is_default: exact equality with Rotation::new. -/
def Rotation.is_default (r : Rotation) : Bool := decide (r = Rotation.new)

/-- Rust struct Scale (serde_tuple, paragen.rs lines 197-203). -/
structure Scale where
  x : ℚ
  y : ℚ
  z : ℚ
deriving DecidableEq

/-- Rust Scale::new, the default (1,1,1). -/
def Scale.new : Scale := { x := 1, y := 1, z := 1 }

/-- Rust Scale::is_default: exact equality with Scale::new. -/
def Scale.is_default (s : Scale) : Bool := decide (s = Scale.new)

/-- Rust struct Node (paragen.rs lines 210-242).  Serde field order: name,
mesh, translation, rotation, scale, children. -/
structure Node where
  name : String
  mesh : Option Nat
  t : Translation
  r : Rotation
  s : Scale
  children : List Nat
deriving DecidableEq

/-- Rust Node::new. -/
def Node.new : Node :=
  { name := ""
    mesh := none
    t := Translation.new
    r := Rotation.new
    s := Scale.new
    children := [] }

/-- Rust enum AlphaMode (paragen.rs lines 257-262), serialized by plain serde
as the variant name string. -/
inductive AlphaMode where
  | OPAQUE
  | MASK
  | BLEND
deriving DecidableEq

/-- Rust struct Color4 (serde_tuple, paragen.rs lines 264-271). -/
structure Color4 where
  r : ℚ
  g : ℚ
  b : ℚ
  a : ℚ
deriving DecidableEq

/-- Rust Color4::new, the default all-ones RGBA. -/
def Color4.new : Color4 := { r := 1, g := 1, b := 1, a := 1 }

/-- Rust Color4::is_default: exact equality with Color4::new. -/
def Color4.is_default (c : Color4) : Bool := decide (c = Color4.new)

/-- Rust struct PBRMetallicRoughness (paragen.rs lines 278-299). -/
structure PBRMetallicRoughness where
  base_color_factor : Color4
  metallic_factor : ℚ
  roughness_factor : ℚ
deriving DecidableEq

/-- Rust PBRMetallicRoughness::new. -/
def PBRMetallicRoughness.new : PBRMetallicRoughness :=
  { base_color_factor := Color4.new
    metallic_factor := 1
    roughness_factor := 1 }

/-- Rust fn is_default_metallic_factor (paragen.rs lines 311-313). -/
def is_default_metallic_factor (value : ℚ) : Bool := decide (value = 1)

/-- Rust fn is_default_roughness_factor (paragen.rs lines 315-317). -/
def is_default_roughness_factor (value : ℚ) : Bool := decide (value = 1)

/-- Rust fn is_default_emissive_factor (paragen.rs lines 319-321). -/
def is_default_emissive_factor (value : ℚ × ℚ × ℚ) : Bool :=
  decide (value = ((0 : ℚ), (0 : ℚ), (0 : ℚ)))

/-- Rust fn is_default_alpha_mode (paragen.rs lines 323-325). -/
def is_default_alpha_mode (value : AlphaMode) : Bool := decide (value = AlphaMode.OPAQUE)

/-- Rust fn is_default_alpha_cutoff (paragen.rs lines 327-329). -/
def is_default_alpha_cutoff (value : ℚ) : Bool := decide (value = (1 : ℚ) / 2)

/-- Rust fn is_default_double_sided (paragen.rs lines 331-333). -/
def is_default_double_sided (value : Bool) : Bool := value == false

/-- Rust struct Material (paragen.rs lines 335-367).  Serde field order: name,
emissiveFactor, alphaMode, alphaCutoff, doubleSided, pbrMetallicRoughness.
The pbr_metallic_roughness field carries no skip attribute in the source. -/
structure Material where
  name : String
  emissive_factor : ℚ × ℚ × ℚ
  alpha_mode : AlphaMode
  alpha_cutoff : ℚ
  double_sided : Bool
  pbr_metallic_roughness : PBRMetallicRoughness
deriving DecidableEq

/-- Rust Material::new. -/
def Material.new : Material :=
  { name := ""
    emissive_factor := (0, 0, 0)
    alpha_mode := AlphaMode.OPAQUE
    alpha_cutoff := (1 : ℚ) / 2
    double_sided := false
    pbr_metallic_roughness := PBRMetallicRoughness.new }

/-- Rust struct Attributes (paragen.rs lines 384-425), ten optional accessor
index slots, each skipped when none. -/
structure Attributes where
  color_0 : Option Nat
  joints_0 : Option Nat
  normal : Option Nat
  position : Option Nat
  tangent : Option Nat
  texcoord_0 : Option Nat
  texcoord_1 : Option Nat
  texcoord_2 : Option Nat
  texcoord_3 : Option Nat
  weights_0 : Option Nat
deriving DecidableEq

/-- Rust Attributes::new. -/
def Attributes.new : Attributes :=
  { color_0 := none
    joints_0 := none
    normal := none
    position := none
    tangent := none
    texcoord_0 := none
    texcoord_1 := none
    texcoord_2 := none
    texcoord_3 := none
    weights_0 := none }

/-- Rust enum Mode (serde_repr u8, paragen.rs lines 444-454). -/
inductive Mode where
  | Points
  | Lines
  | LineLoop
  | LineStrip
  | Triangles
  | TriangleStrip
  | TriangleFan
deriving DecidableEq

/-- Numeric code of Mode per its repr(u8) discriminants. -/
def Mode.code : Mode → Nat
  | .Points => 0
  | .Lines => 1
  | .LineLoop => 2
  | .LineStrip => 3
  | .Triangles => 4
  | .TriangleStrip => 5
  | .TriangleFan => 6

/-- Rust fn is_default_mode (paragen.rs lines 456-458). -/
def is_default_mode (value : Mode) : Bool := decide (value = Mode.Triangles)

/-- Rust struct MeshPrimitive (paragen.rs lines 460-478).  Serde field order:
attributes, indices, material, mode. -/
structure MeshPrimitive where
  attributes : Attributes
  indices : Option Nat
  material : Option Nat
  mode : Mode
deriving DecidableEq

/-- Rust MeshPrimitive::new. -/
def MeshPrimitive.new : MeshPrimitive :=
  { attributes := Attributes.new
    indices := none
    material := none
    mode := Mode.Triangles }

/-- Rust struct Mesh (paragen.rs lines 491-506).  The primitives field carries
no skip attribute: required per the glTF spec. -/
structure Mesh where
  name : String
  primitives : List MeshPrimitive
  weights : List ℚ
deriving DecidableEq

/-- Rust Mesh::new. -/
def Mesh.new : Mesh := { name := "", primitives := [], weights := [] }

/-- Rust enum ComponentType (serde_repr u16, paragen.rs lines 518-527). -/
inductive ComponentType where
  | Byte
  | UnsignedByte
  | Short
  | UnsignedShort
  | UnsignedInt
  | Float
deriving DecidableEq

/-- Numeric code of ComponentType per its repr(u16) discriminants. -/
def ComponentType.code : ComponentType → Nat
  | .Byte => 5120
  | .UnsignedByte => 5121
  | .Short => 5122
  | .UnsignedShort => 5123
  | .UnsignedInt => 5125
  | .Float => 5126

/-- Rust enum Type (paragen.rs lines 529-538), serialized by plain serde as the
variant name string.  Named with a prime because Type is reserved in Lean. -/
inductive Type' where
  | SCALAR
  | VEC2
  | VEC3
  | VEC4
  | MAT2
  | MAT3
  | MAT4
deriving DecidableEq

/-- Variant name string of Type, as plain serde emits it. -/
def Type'.tag : Type' → String
  | .SCALAR => "SCALAR"
  | .VEC2 => "VEC2"
  | .VEC3 => "VEC3"
  | .VEC4 => "VEC4"
  | .MAT2 => "MAT2"
  | .MAT3 => "MAT3"
  | .MAT4 => "MAT4"

/-- Rust struct Accessor (paragen.rs lines 540-580).  Serde field order: name,
bufferView, byteOffset, componentType, normalized, count, type, max, min. -/
structure Accessor where
  name : String
  buffer_view : Option Nat
  byte_offset : Nat
  component_type : ComponentType
  normalized : Bool
  count : Nat
  type_ : Type'
  max : List ℚ
  min : List ℚ
deriving DecidableEq

/-- Rust Accessor::new. -/
def Accessor.new : Accessor :=
  { name := ""
    buffer_view := none
    byte_offset := 0
    component_type := ComponentType.Byte
    normalized := false
    count := 0
    type_ := Type'.SCALAR
    max := []
    min := [] }

/-- Rust fn is_default_byte_offset (paragen.rs lines 598-600). -/
def is_default_byte_offset (value : Nat) : Bool := value == 0

/-- Rust fn is_default_normalized (paragen.rs lines 602-604). -/
def is_default_normalized (value : Bool) : Bool := value == false

/-- Rust enum Target (serde_repr u16, paragen.rs lines 606-611). -/
inductive Target where
  | ArrayBuffer
  | ElementArrayBuffer
deriving DecidableEq

/-- Numeric code of Target per its repr(u16) discriminants. -/
def Target.code : Target → Nat
  | .ArrayBuffer => 34962
  | .ElementArrayBuffer => 34963

/-- Rust struct BufferView (paragen.rs lines 613-637).  Serde field order:
name, buffer, byteLength, byteOffset, byteStride, target.  The byte_offset
field carries no skip attribute: it is always emitted. -/
structure BufferView where
  name : String
  buffer : Nat
  byte_length : Nat
  byte_offset : Nat
  byte_stride : Option Nat
  target : Option Target
deriving DecidableEq

/-- Rust BufferView::new. -/
def BufferView.new : BufferView :=
  { name := ""
    buffer := 0
    byte_length := 0
    byte_offset := 0
    byte_stride := none
    target := none }

/-- Rust struct Buffer (paragen.rs lines 652-667). -/
structure Buffer where
  name : String
  byte_length : Nat
  uri : String
deriving DecidableEq

/-- Rust Buffer::new. -/
def Buffer.new : Buffer := { name := "", byte_length := 0, uri := "" }

/-- Rust struct GLTF (paragen.rs lines 90-132).  Serde field order: asset,
scene, scenes, nodes, materials, meshes, accessors, bufferViews, buffers.  The
asset field carries no skip attribute: mandatory per the glTF spec. -/
structure GLTF where
  asset : Asset
  scene : Option Nat
  scenes : List Scene
  nodes : List Node
  materials : List Material
  meshes : List Mesh
  accessors : List Accessor
  buffer_views : List BufferView
  buffers : List Buffer
deriving DecidableEq

/-- Rust GLTF::new. -/
def GLTF.new : GLTF :=
  { asset := Asset.new
    scene := none
    scenes := []
    nodes := []
    materials := []
    meshes := []
    accessors := []
    buffer_views := []
    buffers := [] }

/-! ## Serde serializers into the JSON value tree

Each function mirrors the derived Serialize impl of the corresponding struct:
fields in declaration order, renamed keys per the serde rename attributes,
fields with skip_serializing_if present exactly when the predicate is false. -/

/-- Serialize impl of Asset: copyright, generator and minVersion are skipped
when empty; version is always emitted. -/
def serializeAsset (a : Asset) : Json :=
  .obj (skipIf a.copyright.isEmpty "copyright" (.str a.copyright) ++
    skipIf a.generator.isEmpty "generator" (.str a.generator) ++
    [("version", .str a.version)] ++
    skipIf a.min_version.isEmpty "minVersion" (.str a.min_version))

/-- Serialize impl of Scene. -/
def serializeScene (s : Scene) : Json :=
  .obj (skipIf s.name.isEmpty "name" (.str s.name) ++
    skipIf s.nodes.isEmpty "nodes" (.arr (s.nodes.map Json.nat)))

/-- Serialize impl of Translation (serde_tuple: a plain array). -/
def serializeTranslation (t : Translation) : Json :=
  .arr [.num t.x, .num t.y, .num t.z]

/-- Serialize impl of Rotation (serde_tuple: a plain array). -/
def serializeRotation (r : Rotation) : Json :=
  .arr [.num r.x, .num r.y, .num r.z, .num r.w]

/-- Serialize impl of Scale (serde_tuple: a plain array). -/
def serializeScale (s : Scale) : Json :=
  .arr [.num s.x, .num s.y, .num s.z]

/-- Serialize impl of Color4 (serde_tuple: a plain array). -/
def serializeColor4 (c : Color4) : Json :=
  .arr [.num c.r, .num c.g, .num c.b, .num c.a]

/-- Serialize impl of Node: every field carries a skip predicate. -/
def serializeNode (n : Node) : Json :=
  .obj (skipIf n.name.isEmpty "name" (.str n.name) ++
    optField "mesh" (n.mesh.map Json.nat) ++
    skipIf n.t.is_default "translation" (serializeTranslation n.t) ++
    skipIf n.r.is_default "rotation" (serializeRotation n.r) ++
    skipIf n.s.is_default "scale" (serializeScale n.s) ++
    skipIf n.children.isEmpty "children" (.arr (n.children.map Json.nat)))

/-- Serialize impl of AlphaMode: plain serde on a fieldless enum emits the
variant name as a JSON string. -/
def serializeAlphaMode : AlphaMode → Json
  | .OPAQUE => .str "OPAQUE"
  | .MASK => .str "MASK"
  | .BLEND => .str "BLEND"

/-- Serialize impl of PBRMetallicRoughness. -/
def serializePBRMetallicRoughness (p : PBRMetallicRoughness) : Json :=
  .obj (skipIf p.base_color_factor.is_default "baseColorFactor"
      (serializeColor4 p.base_color_factor) ++
    skipIf (is_default_metallic_factor p.metallic_factor) "metallicFactor"
      (.num p.metallic_factor) ++
    skipIf (is_default_roughness_factor p.roughness_factor) "roughnessFactor"
      (.num p.roughness_factor))

/-- Serialize impl of Material: pbrMetallicRoughness carries no skip attribute
and is always emitted. -/
def serializeMaterial (m : Material) : Json :=
  .obj (skipIf m.name.isEmpty "name" (.str m.name) ++
    skipIf (is_default_emissive_factor m.emissive_factor) "emissiveFactor"
      (.arr [.num m.emissive_factor.1, .num m.emissive_factor.2.1,
        .num m.emissive_factor.2.2]) ++
    skipIf (is_default_alpha_mode m.alpha_mode) "alphaMode"
      (serializeAlphaMode m.alpha_mode) ++
    skipIf (is_default_alpha_cutoff m.alpha_cutoff) "alphaCutoff"
      (.num m.alpha_cutoff) ++
    skipIf (is_default_double_sided m.double_sided) "doubleSided"
      (.bool m.double_sided) ++
    [("pbrMetallicRoughness", serializePBRMetallicRoughness m.pbr_metallic_roughness)])

/-- Serialize impl of Attributes: ten optional slots in declaration order. -/
def serializeAttributes (a : Attributes) : Json :=
  .obj (optField "COLOR_0" (a.color_0.map Json.nat) ++
    optField "JOINTS_0" (a.joints_0.map Json.nat) ++
    optField "NORMAL" (a.normal.map Json.nat) ++
    optField "POSITION" (a.position.map Json.nat) ++
    optField "TANGENT" (a.tangent.map Json.nat) ++
    optField "TEXCOORD_0" (a.texcoord_0.map Json.nat) ++
    optField "TEXCOORD_1" (a.texcoord_1.map Json.nat) ++
    optField "TEXCOORD_2" (a.texcoord_2.map Json.nat) ++
    optField "TEXCOORD_3" (a.texcoord_3.map Json.nat) ++
    optField "WEIGHTS_0" (a.weights_0.map Json.nat))

/-- Serialize impl of MeshPrimitive: attributes is always emitted; mode is
skipped at Triangles (serde_repr emits the numeric code otherwise). -/
def serializeMeshPrimitive (p : MeshPrimitive) : Json :=
  .obj ([("attributes", serializeAttributes p.attributes)] ++
    optField "indices" (p.indices.map Json.nat) ++
    optField "material" (p.material.map Json.nat) ++
    skipIf (is_default_mode p.mode) "mode" (.nat p.mode.code))

/-- Serialize impl of Mesh: primitives carries no skip attribute and is always
emitted, even when empty. -/
def serializeMesh (m : Mesh) : Json :=
  .obj (skipIf m.name.isEmpty "name" (.str m.name) ++
    [("primitives", .arr (m.primitives.map serializeMeshPrimitive))] ++
    skipIf m.weights.isEmpty "weights" (.arr (m.weights.map Json.num)))

/-- Serialize impl of Accessor: byteOffset is skipped at 0, componentType,
count and type are always emitted. -/
def serializeAccessor (a : Accessor) : Json :=
  .obj (skipIf a.name.isEmpty "name" (.str a.name) ++
    optField "bufferView" (a.buffer_view.map Json.nat) ++
    skipIf (is_default_byte_offset a.byte_offset) "byteOffset" (.nat a.byte_offset) ++
    [("componentType", .nat a.component_type.code)] ++
    skipIf (is_default_normalized a.normalized) "normalized" (.bool a.normalized) ++
    [("count", .nat a.count), ("type", .str a.type_.tag)] ++
    skipIf a.max.isEmpty "max" (.arr (a.max.map Json.num)) ++
    skipIf a.min.isEmpty "min" (.arr (a.min.map Json.num)))

/-- Serialize impl of BufferView: buffer, byteLength and byteOffset are always
emitted (byteOffset carries no skip attribute, unlike the Accessor field of
the same name). -/
def serializeBufferView (b : BufferView) : Json :=
  .obj (skipIf b.name.isEmpty "name" (.str b.name) ++
    [("buffer", .nat b.buffer), ("byteLength", .nat b.byte_length),
      ("byteOffset", .nat b.byte_offset)] ++
    optField "byteStride" (b.byte_stride.map Json.nat) ++
    optField "target" (b.target.map fun t => Json.nat t.code))

/-- Serialize impl of Buffer. -/
def serializeBuffer (b : Buffer) : Json :=
  .obj (skipIf b.name.isEmpty "name" (.str b.name) ++
    [("byteLength", .nat b.byte_length)] ++
    skipIf b.uri.isEmpty "uri" (.str b.uri))

/-- Serialize impl of GLTF: asset is always emitted, every list is skipped
when empty, the scene index when none. -/
def serializeGLTF (g : GLTF) : Json :=
  .obj ([("asset", serializeAsset g.asset)] ++
    optField "scene" (g.scene.map Json.nat) ++
    skipIf g.scenes.isEmpty "scenes" (.arr (g.scenes.map serializeScene)) ++
    skipIf g.nodes.isEmpty "nodes" (.arr (g.nodes.map serializeNode)) ++
    skipIf g.materials.isEmpty "materials" (.arr (g.materials.map serializeMaterial)) ++
    skipIf g.meshes.isEmpty "meshes" (.arr (g.meshes.map serializeMesh)) ++
    skipIf g.accessors.isEmpty "accessors" (.arr (g.accessors.map serializeAccessor)) ++
    skipIf g.buffer_views.isEmpty "bufferViews"
      (.arr (g.buffer_views.map serializeBufferView)) ++
    skipIf g.buffers.isEmpty "buffers" (.arr (g.buffers.map serializeBuffer)))

/-! ## The serde_json pretty formatter

The functions below model the write calls serde_json issues through the
std::io::Write sink during to_writer_pretty: two-space indentation, a newline
and indent before every member, a colon-space between key and value, and the
spec-defined escape table for strings. -/

/-- Hex digit characters of the serde_json escape table (lowercase). -/
def hexDigit (n : Nat) : Char :=
  if n < 10 then Char.ofNat (48 + n) else Char.ofNat (87 + n)

/-- Four-digit hexadecimal rendering used by the \u escapes. -/
def hex4 (n : Nat) : String :=
  String.mk [hexDigit (n / 4096 % 16), hexDigit (n / 256 % 16),
    hexDigit (n / 16 % 16), hexDigit (n % 16)]

/-- Escape of one character inside a JSON string, as serde_json performs it:
quote, backslash and the named control escapes get a backslash form, other
control characters a \u00xx form, and everything else passes through. -/
def escapeChar (c : Char) : String :=
  if c = '\"' then "\\\""
  else if c = '\\' then "\\\\"
  else if c = '\x08' then "\\b"
  else if c = '\t' then "\\t"
  else if c = '\n' then "\\n"
  else if c = '\x0c' then "\\f"
  else if c = '\x0d' then "\\r"
  else if c.toNat < 32 then "\\u" ++ hex4 c.toNat
  else String.singleton c

/-- JSON string literal rendering: quotes around the escaped characters. -/
def renderString (s : String) : String :=
  "\"" ++ String.join (s.data.map escapeChar) ++ "\""

/-- Decimal digits of a rational in the interval [0,1), most significant
first, up to the given fuel (17 digits bound the shortest representation ryu
prints for an f64). -/
def fracDigits : Nat → ℚ → String
  | 0, _ => ""
  | fuel + 1, q =>
    if q = 0 then ""
    else
      let d : Int := Rat.floor (10 * q)
      Int.repr d ++ fracDigits fuel (10 * q - (d : ℚ))

/-- Rendering of a finite f64 as serde_json prints it: optional minus sign,
integer part, decimal point, fraction digits, with a trailing 0 when the value
is integral (1.0 prints as 1.0, never as 1). -/
def renderRat (q : ℚ) : String :=
  let sign := if q < 0 then "-" else ""
  let aq := |q|
  let ip : Int := Rat.floor aq
  let fp : ℚ := aq - (ip : ℚ)
  sign ++ Int.repr ip ++ "." ++ (if fp = 0 then "0" else fracDigits 17 fp)

/-- Indentation of the pretty formatter: two spaces per nesting level. -/
def indentStr (lvl : Nat) : String := String.join (List.replicate lvl "  ")

mutual

/-- Chunk sequence the pretty formatter writes for a JSON value at the given
nesting level. -/
def emit (lvl : Nat) : Json → List String
  | .nat n => [Nat.repr n]
  | .num q => [renderRat q]
  | .str s => [renderString s]
  | .bool b => [if b then "true" else "false"]
  | .arr [] => ["[]"]
  | .arr (x :: xs) =>
    ["[", "\n" ++ indentStr (lvl + 1)] ++ emit (lvl + 1) x ++
      emitArrayRest (lvl + 1) xs ++ ["\n" ++ indentStr lvl ++ "]"]
  | .obj [] => ["\x7b\x7d"]
  | .obj (f :: fs) =>
    ["\x7b", "\n" ++ indentStr (lvl + 1)] ++ emitMember (lvl + 1) f ++
      emitObjectRest (lvl + 1) fs ++ ["\n" ++ indentStr lvl ++ "\x7d"]

/-- Chunk sequence for one object member: escaped key, colon-space, value. -/
def emitMember (lvl : Nat) : String × Json → List String
  | (k, v) => [renderString k, ": "] ++ emit lvl v

/-- Chunk sequence for the remaining array elements, each preceded by a comma,
a newline and the indent. -/
def emitArrayRest (lvl : Nat) : List Json → List String
  | [] => []
  | x :: xs => [",", "\n" ++ indentStr lvl] ++ emit lvl x ++ emitArrayRest lvl xs

/-- Chunk sequence for the remaining object members, each preceded by a comma,
a newline and the indent. -/
def emitObjectRest (lvl : Nat) : List (String × Json) → List String
  | [] => []
  | f :: fs => [",", "\n" ++ indentStr lvl] ++ emitMember lvl f ++ emitObjectRest lvl fs

end

/-! ## Two-pass sizing and export (fn write_gltf) -/

/-- Rust struct DryRunWriter (paragen.rs lines 37-45). -/
structure DryRunWriter where
  bytes_written : Nat
deriving DecidableEq

/-- Rust DryRunWriter::new. -/
def DryRunWriter.new : DryRunWriter := { bytes_written := 0 }

/-- Write impl of DryRunWriter (paragen.rs lines 47-56): add the chunk byte
length to the counter, store nothing, never fail. -/
def DryRunWriter.write (w : DryRunWriter) (buf : String) : DryRunWriter :=
  { bytes_written := w.bytes_written + buf.utf8ByteSize }

/-- Chunk sequence serde_json to_writer_pretty writes for a GLTF document.
Both passes of write_gltf drive this one serializer; they differ only in the
sink receiving the chunks. -/
def to_writer_pretty (g : GLTF) : List String := emit 0 (serializeGLTF g)

/-- Write impl of a byte vector sink: every chunk is appended in order. -/
def writeAll (buffer : String) (chunks : List String) : String :=
  chunks.foldl (fun b s => b ++ s) buffer

/-- Concatenation of a chunk sequence. -/
def concatChunks : List String → String
  | [] => ""
  | s :: rest => s ++ concatChunks rest

/-- Byte count the discard writer accumulates over the dry-run pass. -/
def dryRunCount (g : GLTF) : Nat :=
  ((to_writer_pretty g).foldl DryRunWriter.write DryRunWriter.new).bytes_written

/-- Observable outcome of fn write_gltf: the final buffer contents, the extra
capacity requested from reserve_exact, and the SIZE register value.  The
POINTER register holds a raw memory address and is not modelled. -/
structure ExportOutcome where
  buffer : String
  reserved : Nat
  size : Nat
deriving DecidableEq

/-- Rust fn write_gltf (paragen.rs lines 679-690): serialize once into the
discard writer to measure, reserve exactly that many additional bytes, then
serialize again appending into the caller buffer, and store the total buffer
length in the SIZE register. -/
def write_gltf (buffer : String) (gltf : GLTF) : ExportOutcome :=
  let space_required := dryRunCount gltf
  let buffer1 := writeAll buffer (to_writer_pretty gltf)
  { buffer := buffer1, reserved := space_required, size := buffer1.utf8ByteSize }

/-! ## Byte-accounting lemmas -/

theorem utf8ByteSize_append (a b : String) :
    (a ++ b).utf8ByteSize = a.utf8ByteSize + b.utf8ByteSize := by
  obtain ⟨l⟩ := a
  obtain ⟨m⟩ := b
  show String.utf8ByteSize (String.mk (l ++ m)) = _
  simp [String.utf8ByteSize_mk, String.utf8Len_append]

theorem utf8ByteSize_empty : String.utf8ByteSize "" = 0 := rfl

theorem concatChunks_byteSize (chunks : List String) :
    (concatChunks chunks).utf8ByteSize =
      (chunks.map String.utf8ByteSize).sum := by
  induction chunks with
  | nil => simp [concatChunks, utf8ByteSize_empty]
  | cons c cs ih => simp [concatChunks, utf8ByteSize_append, ih]

theorem writeAll_eq_append (buffer : String) (chunks : List String) :
    writeAll buffer chunks = buffer ++ concatChunks chunks := by
  induction chunks generalizing buffer with
  | nil => simp [writeAll, concatChunks, String.append_empty]
  | cons c cs ih =>
    show writeAll (buffer ++ c) cs = _
    rw [ih, concatChunks, String.append_assoc]

theorem dryRun_fold (w : DryRunWriter) (chunks : List String) :
    (chunks.foldl DryRunWriter.write w).bytes_written =
      w.bytes_written + (concatChunks chunks).utf8ByteSize := by
  induction chunks generalizing w with
  | nil => simp [concatChunks, utf8ByteSize_empty]
  | cons c cs ih =>
    show (cs.foldl DryRunWriter.write (w.write c)).bytes_written = _
    rw [ih, concatChunks, utf8ByteSize_append, DryRunWriter.write, Nat.add_assoc]

/-- Central accounting fact: the discard-writer count of the dry-run pass
equals the byte length of the concatenated chunk sequence the real pass
appends. -/
theorem dryRunCount_eq_bytes (g : GLTF) :
    dryRunCount g = (concatChunks (to_writer_pretty g)).utf8ByteSize := by
  rw [dryRunCount, dryRun_fold]
  simp [DryRunWriter.new]

theorem write_gltf_buffer (buffer : String) (g : GLTF) :
    (write_gltf buffer g).buffer = buffer ++ concatChunks (to_writer_pretty g) := by
  rw [write_gltf, writeAll_eq_append]

theorem write_gltf_size (buffer : String) (g : GLTF) :
    (write_gltf buffer g).size = buffer.utf8ByteSize + dryRunCount g := by
  rw [write_gltf]
  show (writeAll buffer (to_writer_pretty g)).utf8ByteSize = _
  rw [writeAll_eq_append, utf8ByteSize_append, dryRunCount_eq_bytes]

/-! ## Boundary error codes and the export channel

The enum ErrorCode and the statics MUTEX_TEST, POINTER and SIZE live in
src/src/paragen.rs, but the boundary entry point that locks the mutex, calls
write_gltf and returns an ErrorCode is generated by the paragen procedural
macro, whose crate is not under src/.  That entry point is therefore modelled
from the spec below. -/

/-- Rust enum ErrorCode (paragen.rs lines 30-35), repr(i32). -/
inductive ErrorCode where
  | None
  | Mutex
  | Generation
deriving DecidableEq

/-- Numeric value of ErrorCode per its repr(i32) discriminants. -/
def ErrorCode.code : ErrorCode → Int
  | .None => 0
  | .Mutex => 1
  | .Generation => 2

/-- Result of running the serialization engine against an infallible sink.
serde_json to_writer_pretty reports an error only when a sink write fails;
the discard writer and the byte-vector writer both always succeed, so the
checked run always returns the chunk sequence. -/
def to_writer_pretty_checked (g : GLTF) : Except String (List String) :=
  Except.ok (to_writer_pretty g)

/-- Modelled from the spec: the process-wide export channel, combining the
lock guarding the MUTEX_TEST scratch buffer (paragen.rs line 12), the guarded
scratch buffer itself, and the SIZE register read by the size accessor. -/
structure ExportChannel where
  locked : Bool
  scratch : String
  size : Nat
deriving DecidableEq

/-- Modelled from the spec: lock acquisition at the start of an export.  An
export attempt finding the lock held reports Mutex and changes nothing. -/
def export_begin (ch : ExportChannel) : ErrorCode × ExportChannel :=
  if ch.locked then (ErrorCode.Mutex, ch)
  else (ErrorCode.None, { ch with locked := true })

/-- Modelled from the spec: the guarded body and unconditional release of one
export, running write_gltf against the scratch buffer and publishing the SIZE
register. -/
def export_finish (ch : ExportChannel) (g : GLTF) : ExportChannel :=
  let out := write_gltf ch.scratch g
  { locked := false, scratch := out.buffer, size := out.size }

/-- Modelled from the spec: the boundary export entry point generated by the
paragen macro (not under src/).  It tries to acquire the lock, reports Mutex
on contention, maps an engine fault to Generation with the register left at
its previous value and the lock released, and otherwise publishes the result
and reports None. -/
def export_entry (ch : ExportChannel) (g : GLTF) : ErrorCode × ExportChannel :=
  match export_begin ch with
  | (ErrorCode.Mutex, ch1) => (ErrorCode.Mutex, ch1)
  | (_, ch1) =>
    match to_writer_pretty_checked g with
    | Except.error _ => (ErrorCode.Generation, { ch1 with locked := false })
    | Except.ok _ => (ErrorCode.None, export_finish ch1 g)

/-- Modelled from the spec: two export calls with no serialization between
them.  The first call acquires the lock; while it is in flight the second
call runs in full; the first call then completes and releases.  With the lock
held across the whole first export this is the only interleaving the
discipline admits. -/
def overlapped_exports (ch : ExportChannel) (g1 g2 : GLTF) :
    ErrorCode × ErrorCode × ExportChannel :=
  match export_begin ch with
  | (ErrorCode.Mutex, ch1) =>
    let second := export_entry ch1 g2
    (ErrorCode.Mutex, second.1, second.2)
  | (_, ch1) =>
    let second := export_entry ch1 g2
    match to_writer_pretty_checked g1 with
    | Except.error _ => (ErrorCode.Generation, second.1, { second.2 with locked := false })
    | Except.ok _ => (ErrorCode.None, second.1, export_finish second.2 g1)

/-! ## Helper lemmas on field emission -/

@[simp] theorem fields_obj (fs : List (String × Json)) : (Json.obj fs).fields = fs := rfl

@[simp] theorem keys_obj (fs : List (String × Json)) :
    (Json.obj fs).keys = fs.map Prod.fst := rfl

@[simp] theorem mem_skipIf (p : String × Json) (b : Bool) (k : String) (v : Json) :
    p ∈ skipIf b k v ↔ b = false ∧ p = (k, v) := by
  cases b <;> simp [skipIf]

@[simp] theorem mem_optField (p : String × Json) (k : String) (o : Option Json) :
    p ∈ optField k o ↔ ∃ v, o = some v ∧ p = (k, v) := by
  cases o <;> simp [optField]

@[simp] theorem mem_map_fst_skipIf (s : String) (b : Bool) (k : String) (v : Json) :
    s ∈ (skipIf b k v).map Prod.fst ↔ b = false ∧ s = k := by
  cases b <;> simp [skipIf]

@[simp] theorem mem_map_fst_optField (s : String) (k : String) (o : Option Json) :
    s ∈ (optField k o).map Prod.fst ↔ o.isSome = true ∧ s = k := by
  cases o <;> simp [optField]

/-! ## Claim theorems -/

/-- Counterexample for C1 as stated: with one pre-existing byte in the
supplied buffer, the SIZE register after export is the total buffer length,
which differs from the dry-run byte count. -/
theorem write_gltf_size_differs_on_preloaded_buffer :
    ¬ (write_gltf " " GLTF.new).size = dryRunCount GLTF.new := by
  rw [write_gltf_size]
  have h : (" " : String).utf8ByteSize = 1 := rfl
  rw [h]
  omega

/-- C1 (amended): the SIZE register after export always equals the actual
byte length of the published buffer, and it equals the byte count of the
discard-writer dry run whenever the supplied buffer is empty at call time. -/
theorem write_gltf_size_exact_on_empty_buffer (buffer : String) (g : GLTF) :
    (write_gltf buffer g).size = (write_gltf buffer g).buffer.utf8ByteSize ∧
    (write_gltf "" g).size = dryRunCount g := by
  constructor
  · rfl
  · rw [write_gltf_size]
    simp [utf8ByteSize_empty]

/-- C2: the modelled boundary export entry point returns a code from the
fixed enumeration; Mutex is returned exactly on contention; on success the
channel is the one produced by the guarded export of the document; on any
failure the channel is unchanged.  Engine faults map to Generation; with the
infallible writers of the source that branch is unreachable, which is why no
panic is observable at the boundary. -/
theorem export_entry_error_code_contract (ch : ExportChannel) (g : GLTF) :
    ((export_entry ch g).1 = ErrorCode.None ∨ (export_entry ch g).1 = ErrorCode.Mutex ∨
      (export_entry ch g).1 = ErrorCode.Generation) ∧
    ((export_entry ch g).1 = ErrorCode.Mutex ↔ ch.locked = true) ∧
    ((export_entry ch g).1 = ErrorCode.None →
      (export_entry ch g).2 = export_finish { ch with locked := true } g) ∧
    ((export_entry ch g).1 ≠ ErrorCode.None → (export_entry ch g).2 = ch) := by
  obtain ⟨l, scr, sz⟩ := ch
  cases l <;>
    simp [export_entry, export_begin, to_writer_pretty_checked]

/-- Witness for C2 at concrete channels: a successful export updates the
channel by the guarded export, a contended one leaves it unchanged. -/
theorem export_entry_error_code_contract_witness :
    (export_entry ⟨false, "", 0⟩ GLTF.new).2 = export_finish ⟨true, "", 0⟩ GLTF.new ∧
    (export_entry ⟨true, "", 0⟩ GLTF.new).2 = (⟨true, "", 0⟩ : ExportChannel) :=
  ⟨(export_entry_error_code_contract ⟨false, "", 0⟩ GLTF.new).2.2.1 rfl,
    (export_entry_error_code_contract ⟨true, "", 0⟩ GLTF.new).2.2.2 (by decide)⟩

/-- C3: two export calls with no serialization between them: the first
reports None, the second reports Mutex, and the final channel equals the one
a solo successful export of the first document produces, so the register
reflects only the succeeding call. -/
theorem overlapped_exports_mutual_exclusion (ch : ExportChannel) (g1 g2 : GLTF)
    (h : ch.locked = false) :
    (overlapped_exports ch g1 g2).1 = ErrorCode.None ∧
    (overlapped_exports ch g1 g2).2.1 = ErrorCode.Mutex ∧
    (overlapped_exports ch g1 g2).2.2 = (export_entry ch g1).2 := by
  obtain ⟨l, scr, sz⟩ := ch
  subst h
  simp [overlapped_exports, export_entry, export_begin, export_finish,
    to_writer_pretty_checked]

/-- Witness for C3 at an unlocked channel and two concrete documents. -/
theorem overlapped_exports_mutual_exclusion_witness :
    (⟨false, "", 0⟩ : ExportChannel).locked = false ∧
    ((overlapped_exports ⟨false, "", 0⟩ GLTF.new
        { GLTF.new with scene := some 0 }).1 = ErrorCode.None ∧
      (overlapped_exports ⟨false, "", 0⟩ GLTF.new
        { GLTF.new with scene := some 0 }).2.1 = ErrorCode.Mutex ∧
      (overlapped_exports ⟨false, "", 0⟩ GLTF.new
        { GLTF.new with scene := some 0 }).2.2 =
        (export_entry ⟨false, "", 0⟩ GLTF.new).2) :=
  ⟨rfl, overlapped_exports_mutual_exclusion ⟨false, "", 0⟩ GLTF.new
    { GLTF.new with scene := some 0 } rfl⟩

/-- C4: every serialized BufferView contains the key byteOffset, while every
Accessor with byte offset 0 omits it. -/
theorem byteOffset_emission_asymmetry :
    (∀ bv : BufferView, "byteOffset" ∈ (serializeBufferView bv).keys) ∧
    (∀ a : Accessor, a.byte_offset = 0 →
      "byteOffset" ∉ (serializeAccessor a).keys) := by
  constructor
  · intro bv
    simp [serializeBufferView, Json.keys]
  · intro a h
    simp [serializeAccessor, Json.keys, is_default_byte_offset, h]

/-- Witness for C4 at the default BufferView and the default Accessor. -/
theorem byteOffset_emission_asymmetry_witness :
    "byteOffset" ∈ (serializeBufferView BufferView.new).keys ∧
    Accessor.new.byte_offset = 0 ∧
    "byteOffset" ∉ (serializeAccessor Accessor.new).keys :=
  ⟨byteOffset_emission_asymmetry.1 BufferView.new, rfl,
    byteOffset_emission_asymmetry.2 Accessor.new rfl⟩

/-- C5: a Node at full defaults serializes to the empty JSON object, and a
Node differing from the defaults only by translation (1,0,0) serializes to
the single-member object with translation [1,0,0]. -/
theorem node_default_omission :
    (∀ n : Node, n.name = "" → n.mesh = none → n.t = Translation.new →
      n.r = Rotation.new → n.s = Scale.new → n.children = [] →
      serializeNode n = Json.obj []) ∧
    (∀ n : Node, n.name = "" → n.mesh = none → n.t = ⟨1, 0, 0⟩ →
      n.r = Rotation.new → n.s = Scale.new → n.children = [] →
      serializeNode n = Json.obj
        [("translation", Json.arr [Json.num 1, Json.num 0, Json.num 0])]) := by
  constructor <;>
  · intro n h1 h2 h3 h4 h5 h6
    obtain ⟨nm, ms, t, r, s, ch⟩ := n
    simp only [Node.name, Node.mesh, Node.t, Node.r, Node.s, Node.children] at h1 h2 h3 h4 h5 h6
    subst h1
    subst h2
    subst h3
    subst h4
    subst h5
    subst h6
    rfl

/-- Witness for C5 at the default Node and the translated default Node. -/
theorem node_default_omission_witness :
    serializeNode Node.new = Json.obj [] ∧
    serializeNode { Node.new with t := ⟨1, 0, 0⟩ } = Json.obj
      [("translation", Json.arr [Json.num 1, Json.num 0, Json.num 0])] :=
  ⟨node_default_omission.1 Node.new rfl rfl rfl rfl rfl rfl,
    node_default_omission.2 { Node.new with t := ⟨1, 0, 0⟩ } rfl rfl rfl rfl rfl rfl⟩

/-- C6: every serialized Mesh contains the primitives member with the full
primitive array (even when empty), and every serialized Asset contains the
version member with the version string (even when empty). -/
theorem mesh_primitives_asset_version_always_present :
    (∀ m : Mesh, ("primitives", Json.arr (m.primitives.map serializeMeshPrimitive))
        ∈ (serializeMesh m).fields) ∧
    (∀ a : Asset, ("version", Json.str a.version) ∈ (serializeAsset a).fields) := by
  constructor
  · intro m
    simp [serializeMesh]
  · intro a
    simp [serializeAsset]

/-- C7: AlphaMode MASK serializes as the string MASK, ComponentType Float as
the integer 5126, and Target ArrayBuffer as the integer 34962. -/
theorem enum_encoding_fixed :
    serializeAlphaMode AlphaMode.MASK = Json.str "MASK" ∧
    (∀ a : Accessor, a.component_type = ComponentType.Float →
      ("componentType", Json.nat 5126) ∈ (serializeAccessor a).fields) ∧
    (∀ b : BufferView, b.target = some Target.ArrayBuffer →
      ("target", Json.nat 34962) ∈ (serializeBufferView b).fields) := by
  refine ⟨rfl, ?_, ?_⟩
  · intro a h
    simp [serializeAccessor, h, ComponentType.code]
  · intro b h
    simp [serializeBufferView, h, Target.code]

/-- Witness for C7 at concrete entities carrying the enumeration values. -/
theorem enum_encoding_fixed_witness :
    ({ Accessor.new with component_type := ComponentType.Float }).component_type
        = ComponentType.Float ∧
    ("componentType", Json.nat 5126) ∈
      (serializeAccessor
        { Accessor.new with component_type := ComponentType.Float }).fields ∧
    ("target", Json.nat 34962) ∈
      (serializeBufferView
        { BufferView.new with target := some Target.ArrayBuffer }).fields :=
  ⟨rfl, enum_encoding_fixed.2.1 _ rfl, enum_encoding_fixed.2.2 _ rfl⟩

/-- Chunk sequence the dry-run pass hands to the discard writer. -/
def dryRunStream (g : GLTF) : List String := to_writer_pretty g

/-- Chunk sequence the real pass hands to the byte-vector writer. -/
def realRunStream (g : GLTF) : List String := to_writer_pretty g

/-- C8: the dry-run pass and the real pass of one export hand the same byte
sequence to their sinks: the streams coincide, the discard-writer count
equals the byte length of the real output, and an export into an empty buffer
publishes exactly that output. -/
theorem two_pass_byte_identity (g : GLTF) :
    dryRunStream g = realRunStream g ∧
    dryRunCount g = (concatChunks (realRunStream g)).utf8ByteSize ∧
    (write_gltf "" g).buffer = concatChunks (realRunStream g) := by
  refine ⟨rfl, dryRunCount_eq_bytes g, ?_⟩
  rw [write_gltf_buffer]
  exact String.empty_append _

/-- C9: every serialized Material contains the key pbrMetallicRoughness, and
the fully default Material still serializes to a non-empty object holding
exactly that member. -/
theorem material_pbr_block_always_present :
    (∀ m : Material, "pbrMetallicRoughness" ∈ (serializeMaterial m).keys) ∧
    serializeMaterial Material.new =
      Json.obj [("pbrMetallicRoughness", Json.obj [])] := by
  constructor
  · intro m
    simp [serializeMaterial, Json.keys]
  · simp [serializeMaterial, Material.new, serializePBRMetallicRoughness,
      PBRMetallicRoughness.new, skipIf, is_default_emissive_factor,
      is_default_alpha_mode, is_default_alpha_cutoff, is_default_double_sided,
      Color4.is_default, is_default_metallic_factor, is_default_roughness_factor]
    decide

/-- C10: export appends the serialized document after any pre-existing buffer
contents, reserves exactly the dry-run byte count of additional capacity, and
the SIZE register reports the total length including the pre-existing bytes;
with an empty buffer the register equals the dry-run count exactly. -/
theorem write_gltf_appends_and_reports_total (buffer : String) (g : GLTF) :
    (write_gltf buffer g).buffer = buffer ++ concatChunks (to_writer_pretty g) ∧
    (write_gltf buffer g).reserved = dryRunCount g ∧
    (write_gltf buffer g).size = buffer.utf8ByteSize + dryRunCount g ∧
    (write_gltf "" g).size = dryRunCount g :=
  ⟨write_gltf_buffer buffer g, rfl, write_gltf_size buffer g,
    by rw [write_gltf_size]; simp [utf8ByteSize_empty]⟩
